import Mathlib

/-!
Verification of the credential/endpoint resolution and token-caching
subsystem of the NinjaOne API client (`src/src/ninja-api.ts`, class
`NinjaOneAPI`; the sibling JavaScript variant `src/server/ninja-api.js`
shares the same method bodies but has a different constructor, modelled
separately below).

The embedding is shallow: the mutable fields of the class become a
`ClientState` record, `process.env` becomes an `Env` record fixed per
call, the network becomes oracles (`String → TokenHttpReply` for the
OAuth endpoint, `String → HttpResponse` for data endpoints), and each
method becomes a pure function from state (plus oracles and the current
time `now`, standing for `Date.now()`) to a result, a new state and the
list of network attempts it performed, in order.  JavaScript truthiness
of the nullable string/number fields is modelled explicitly.
-/

namespace NinjaOne

/-- The JSON body of a successful OAuth token response, as consumed by
`requestToken` (`token.access_token`, `token.expires_in`). -/
structure TokenResponse where
  access_token : String
  expires_in : Int
deriving DecidableEq, Repr

/-- Outcome of one `fetch` of the OAuth token endpoint: either a
network-level exception (`noResponse`), or an HTTP response with
`response.ok`, status, status text, and the result of `response.json()`
(`none` when the body is not a JSON object with the expected fields). -/
inductive TokenHttpReply where
  | noResponse
  | response (ok : Bool) (status : Nat) (statusText : String)
      (body : Option TokenResponse)
deriving DecidableEq, Repr

/-- The errors thrown by the client (in the source they are `Error`
values distinguished by message; here each `throw` site gets a
constructor carrying the data interpolated into its message). -/
inductive NinjaError where
  /-- Thrown as `NinjaONE API not configured - ...`. -/
  | configurationError
  /-- Thrown as `Failed to acquire OAuth token: no candidate base URL
  succeeded. Tried: ...` with the pushed `tried` list. -/
  | endpointDiscoveryError (tried : List String)
  /-- Thrown as `OAuth token request failed: status statusText`. -/
  | oauthHttpError (status : Nat) (statusText : String)
  /-- a network-level exception out of `fetch` -/
  | networkFailure
  /-- Raised when `response.json()` fails to produce the expected fields. -/
  | tokenBodyInvalid
  /-- Thrown as `API request failed: status statusText - errorText`. -/
  | apiRequestError (status : Nat) (statusText : String) (body : String)
  /-- Thrown as `Unknown region: region`. -/
  | unknownRegion (region : String)
deriving DecidableEq, Repr

/-- The diagnostic message of an error, as interpolated at the `throw`
site in the source (`tried.join(', ')`). -/
def NinjaError.message : NinjaError → String
  | .configurationError =>
      "NinjaONE API not configured - NINJA_CLIENT_ID and NINJA_CLIENT_SECRET required"
  | .endpointDiscoveryError tried =>
      "Failed to acquire OAuth token: no candidate base URL succeeded. Tried: "
        ++ String.intercalate ", " tried
  | .oauthHttpError status statusText =>
      "OAuth token request failed: " ++ toString status ++ " " ++ statusText
  | .networkFailure => "fetch failed"
  | .tokenBodyInvalid => "invalid token response body"
  | .apiRequestError status statusText body =>
      "API request failed: " ++ toString status ++ " " ++ statusText ++ " - " ++ body
  | .unknownRegion region => "Unknown region: " ++ region

/-- The mutable instance fields of `NinjaOneAPI`.  `baseUrl`,
`accessToken` and `tokenExpiry` are nullable in the source
(`string | null`, `number | null`), hence `Option`. -/
structure ClientState where
  baseUrl : Option String
  clientId : String
  clientSecret : String
  accessToken : Option String
  tokenExpiry : Option Int
  isConfigured : Bool
  baseUrlExplicit : Bool
deriving DecidableEq, Repr

/-- The environment variables the client reads (`process.env.*`); a
missing variable is `none`. -/
structure Env where
  NINJA_BASE_URL : Option String := none
  NINJA_REGION : Option String := none
  NINJA_BASE_URLS : Option String := none
  NINJA_CLIENT_ID : Option String := none
  NINJA_CLIENT_SECRET : Option String := none
deriving DecidableEq, Repr

/-- JavaScript truthiness of a `string | null` / `string | undefined`
value: defined and non-empty. -/
def truthyStr : Option String → Bool
  | none => false
  | some s => s ≠ ""

/-- JavaScript truthiness of a `number | null` value: defined and
non-zero (`NaN` is not produced by this code path). -/
def truthyNum : Option Int → Bool
  | none => false
  | some n => n ≠ 0

/-- Evaluates `x || ''` on a `string | undefined`. -/
def orEmpty (o : Option String) : String := o.getD ""

/-- ASCII-insensitive character list of a string; stands for the
case-insensitivity (`i` flag) of the source's regex and for
`.toLowerCase()`. -/
def lowerChars (s : String) : List Char := s.data.map Char.toLower

/-- Models `String.toLowerCase()` as used on region keys. -/
def jsToLower (s : String) : String := ⟨lowerChars s⟩

/-- Explicit prefix test on character lists (first argument is the
pattern). -/
def startsWithChars : List Char → List Char → Bool
  | [], _ => true
  | _ :: _, [] => false
  | c :: cs, d :: ds => c == d && startsWithChars cs ds

/-- Models `/^https?:\/\//i.test(url)`: the string begins with `http://` or
`https://`, case-insensitively. -/
def hasHttpScheme (url : String) : Bool :=
  startsWithChars "http://".data (lowerChars url)
    || startsWithChars "https://".data (lowerChars url)

/-- Models `normalizeBaseUrl` (src/src/ninja-api.ts:107-112): prefix
`https://` when no `http(s)://` scheme is present. -/
def normalizeBaseUrl (url : String) : String :=
  if !hasHttpScheme url then "https://" ++ url else url

/-- Models `NinjaOneAPI.REGION_MAP` (src/src/ninja-api.ts:10-16). -/
def REGION_MAP : String → Option String
  | "us" => some "https://app.ninjarmm.com"
  | "us2" => some "https://us2.ninjarmm.com"
  | "eu" => some "https://eu.ninjarmm.com"
  | "ca" => some "https://ca.ninjarmm.com"
  | "oc" => some "https://oc.ninjarmm.com"
  | _ => none

/-- Models `NinjaOneAPI.DEFAULT_CANDIDATES` (src/src/ninja-api.ts:18-24). -/
def DEFAULT_CANDIDATES : List String :=
  ["https://app.ninjarmm.com", "https://us2.ninjarmm.com",
   "https://eu.ninjarmm.com", "https://ca.ninjarmm.com",
   "https://oc.ninjarmm.com"]

/-- Models `String.split(',')` at character level (splitting on every comma;
splitting the empty string yields `[""]`, as in JavaScript). -/
def splitCommaChars : List Char → List (List Char)
  | [] => [[]]
  | c :: rest =>
    if c = ',' then [] :: splitCommaChars rest
    else
      match splitCommaChars rest with
      | [] => [[c]]
      | x :: xs => (c :: x) :: xs

/-- Models `String.split(',')`. -/
def jsSplitComma (s : String) : List String :=
  (splitCommaChars s.data).map (fun l => ⟨l⟩)

/-- Models `String.trim()`: strip leading and trailing whitespace. -/
def jsTrim (s : String) : String :=
  ⟨((s.data.dropWhile Char.isWhitespace).reverse.dropWhile
      Char.isWhitespace).reverse⟩

/-- The local `fromEnv` of `getCandidateBaseUrls`
(src/src/ninja-api.ts:115-119):
`(NINJA_BASE_URLS || '').split(',').map(trim).filter(Boolean).map(normalize)`. -/
def envCandidates (env : Env) : List String :=
  (((jsSplitComma (orEmpty env.NINJA_BASE_URLS)).map jsTrim).filter
    (fun s => s ≠ "")).map normalizeBaseUrl

/-- Models `getCandidateBaseUrls` (src/src/ninja-api.ts:114-121): the
environment-supplied list when non-empty, else the defaults. -/
def getCandidateBaseUrls (env : Env) : List String :=
  if (envCandidates env).length > 0 then envCandidates env else DEFAULT_CANDIDATES

/-- The constructor of the TypeScript class
(src/src/ninja-api.ts:26-49), including the field initializers that run
before its body. -/
def mkClient (env : Env) : ClientState :=
  let envRegion := jsToLower (orEmpty env.NINJA_REGION)
  let resolved : Option String × Bool :=
    if truthyStr env.NINJA_BASE_URL then
      (some (normalizeBaseUrl (orEmpty env.NINJA_BASE_URL)), true)
    else if envRegion ≠ "" ∧ (REGION_MAP envRegion).isSome then
      (REGION_MAP envRegion, true)
    else (none, false)
  let clientId := orEmpty env.NINJA_CLIENT_ID
  let clientSecret := orEmpty env.NINJA_CLIENT_SECRET
  { baseUrl := resolved.1
    clientId := clientId
    clientSecret := clientSecret
    accessToken := none
    tokenExpiry := none
    isConfigured := clientId ≠ "" && clientSecret ≠ ""
    baseUrlExplicit := resolved.2 }

/-- The constructor of the JavaScript variant
(src/server/ninja-api.js:12-40).  Its body first resolves the endpoint
exactly as the TypeScript constructor does, but then unconditionally
runs `this.accessToken = null; this.tokenExpiry = null;
this.baseUrlExplicit = false;` (lines 29-31), which overwrites the
`baseUrlExplicit = true` just established for explicit configuration. -/
def mkClientServerJs (env : Env) : ClientState :=
  { mkClient env with baseUrlExplicit := false }

/-- Models `requestToken` (src/src/ninja-api.ts:86-105), as a function of the
OAuth endpoint's reply for the given base URL: a network exception
propagates; `if (!response.ok) throw ...` fails on the status alone;
otherwise `response.json()` yields the token payload. -/
def requestToken (reply : TokenHttpReply) : Except NinjaError TokenResponse :=
  match reply with
  | .noResponse => .error .networkFailure
  | .response ok status statusText body =>
    if !ok then .error (.oauthHttpError status statusText)
    else
      match body with
      | some t => .ok t
      | none => .error .tokenBodyInvalid

instance {α β : Type} [DecidableEq α] [DecidableEq β] :
    DecidableEq (Except α β)
  | .error a, .error b => decidable_of_iff (a = b) (by simp)
  | .error _, .ok _ => .isFalse (by simp)
  | .ok _, .error _ => .isFalse (by simp)
  | .ok a, .ok b => decidable_of_iff (a = b) (by simp)

/-- Result of one `getAccessToken()` call: the returned token or the
thrown error, the state after the call, and the base URLs against which
`requestToken` was invoked, in order. -/
structure GetTokenResult where
  result : Except NinjaError String
  state : ClientState
  attempts : List String
deriving DecidableEq, Repr

/-- The auto-detection loop of `getAccessToken`
(src/src/ninja-api.ts:59-77): push each candidate onto `tried`, attempt
the exchange, adopt the first success (lock the base URL, cache the
token), and at exhaustion throw the discovery error carrying `tried`. -/
def autoDetectLoop (net : String → TokenHttpReply) (now : Int)
    (s : ClientState) (tried : List String) :
    List String → GetTokenResult
  | [] =>
    { result := .error (.endpointDiscoveryError tried), state := s, attempts := [] }
  | candidate :: rest =>
    match requestToken (net candidate) with
    | .ok t =>
      { result := .ok t.access_token
        state := { s with
          baseUrl := some candidate
          baseUrlExplicit := true
          accessToken := some t.access_token
          tokenExpiry := some (now + t.expires_in * 1000) }
        attempts := [candidate] }
    | .error _ =>
      let r := autoDetectLoop net now s (tried ++ [candidate]) rest
      { r with attempts := candidate :: r.attempts }

/-- The condition of the token-cache check of `getAccessToken`
(src/src/ninja-api.ts:55): `this.accessToken && this.tokenExpiry &&
Date.now() < (this.tokenExpiry - 300000)`. -/
def cacheHit (now : Int) (s : ClientState) : Bool :=
  truthyStr s.accessToken && truthyNum s.tokenExpiry
    && decide (now < s.tokenExpiry.getD 0 - 300000)

/-- Models `getAccessToken` (src/src/ninja-api.ts:50-84; identical in the
JavaScript variant).  `now` stands for `Date.now()`. -/
def getAccessToken (env : Env) (net : String → TokenHttpReply) (now : Int)
    (s : ClientState) : GetTokenResult :=
  if !s.isConfigured then
    { result := .error .configurationError, state := s, attempts := [] }
  else if cacheHit now s then
    { result := .ok (s.accessToken.getD ""), state := s, attempts := [] }
  else if !truthyStr s.baseUrl || !s.baseUrlExplicit then
    autoDetectLoop net now s [] (getCandidateBaseUrls env)
  else
    let u := (s.baseUrl).getD ""
    match requestToken (net u) with
    | .ok t =>
      { result := .ok t.access_token
        state := { s with
          accessToken := some t.access_token
          tokenExpiry := some (now + t.expires_in * 1000) }
        attempts := [u] }
    | .error e => { result := .error e, state := s, attempts := [u] }

/-- Models `setBaseUrl` (src/src/ninja-api.ts:182-187): normalize, mark
explicit, and reset the token cache. -/
def setBaseUrl (url : String) (s : ClientState) : ClientState :=
  { s with
    baseUrl := some (normalizeBaseUrl url)
    baseUrlExplicit := true
    accessToken := none
    tokenExpiry := none }

/-- Models `setRegion` (src/src/ninja-api.ts:175-180): look the lower-cased
key up in `REGION_MAP`; throw on an unknown key, else delegate to
`setBaseUrl`. -/
def setRegion (region : String) (s : ClientState) : Except NinjaError ClientState :=
  match REGION_MAP (jsToLower region) with
  | none => .error (.unknownRegion region)
  | some mapped => .ok (setBaseUrl mapped s)

/-- JSON values, for the parsed bodies that `makeRequest` relays. -/
inductive Json where
  | null
  | bool (b : Bool)
  | num (n : Int)
  | str (s : String)
  | arr (xs : List Json)
  | obj (fields : List (String × Json))
deriving Repr

/-- The synthetic `{ success: true }` object returned by the response
normalization of `makeRequest`. -/
def successTrue : Json := .obj [("success", .bool true)]

/-- An HTTP response to a data request, as observed by `makeRequest`:
`response.ok`, `response.status`, `response.statusText`, and the text of
the body (`response.text()`). -/
structure HttpResponse where
  ok : Bool
  status : Nat
  statusText : String
  body : String
deriving Repr

/-- The 2xx response-body normalization of `makeRequest`
(src/src/ninja-api.ts:149-168): `DELETE` with status 204 yields
`{success:true}`; an empty or whitespace-only body yields
`{success:true}`; otherwise `JSON.parse(text)`, with a parse failure
again yielding `{success:true}`.  `parse` stands for `JSON.parse`
(`none` = it throws). -/
def normalizeResponse (parse : String → Option Json) (method : String)
    (status : Nat) (body : String) : Json :=
  if method == "DELETE" && status == 204 then successTrue
  else if jsTrim body == "" then successTrue
  else
    match parse body with
    | some j => j
    | none => successTrue

/-- The `base` of `makeRequest` (src/src/ninja-api.ts:125):
`this.baseUrl || NinjaOneAPI.DEFAULT_CANDIDATES[0]`. -/
def requestBase (s : ClientState) : String :=
  if truthyStr s.baseUrl then (s.baseUrl).getD ""
  else (DEFAULT_CANDIDATES).headD ""

/-- Result of one `makeRequest` call: the normalized body or the thrown
error, the state after the call, the token-exchange attempts performed
(via `getAccessToken`), and the URLs of the data fetches performed. -/
structure RequestResult where
  result : Except NinjaError Json
  state : ClientState
  tokenAttempts : List String
  dataRequests : List String
deriving Repr

/-- Models `makeRequest` (src/src/ninja-api.ts:123-168).  It first awaits
`getAccessToken()` (whose failure propagates before any data fetch),
resolves `base = this.baseUrl || DEFAULT_CANDIDATES[0]`, fetches
`base + endpoint` (`dataNet` is the network oracle for data requests;
the bearer header and optional JSON body only shape that outbound call),
throws `ApiRequestError` on a non-ok response, and otherwise normalizes
the body. -/
def makeRequest (env : Env) (net : String → TokenHttpReply)
    (dataNet : String → HttpResponse) (parse : String → Option Json)
    (now : Int) (s : ClientState) (endpoint : String)
    (method : String := "GET") : RequestResult :=
  let g := getAccessToken env net now s
  match g.result with
  | .error e =>
    { result := .error e, state := g.state, tokenAttempts := g.attempts
      dataRequests := [] }
  | .ok _ =>
    let url := requestBase g.state ++ endpoint
    let resp := dataNet url
    if !resp.ok then
      { result := .error (.apiRequestError resp.status resp.statusText resp.body)
        state := g.state, tokenAttempts := g.attempts, dataRequests := [url] }
    else
      { result := .ok (normalizeResponse parse method resp.status resp.body)
        state := g.state, tokenAttempts := g.attempts, dataRequests := [url] }

/-! ### Basic lemmas about URL normalization and the candidate list -/

theorem startsWithChars_append_self (p r : List Char) :
    startsWithChars p (p ++ r) = true := by
  induction p with
  | nil => rfl
  | cons c cs ih => simp [startsWithChars, ih]

theorem lowerChars_append (a b : String) :
    lowerChars (a ++ b) = lowerChars a ++ lowerChars b := by
  cases a with
  | mk da =>
    cases b with
    | mk db => simp [lowerChars, String.append]

theorem hasHttpScheme_https_append (u : String) :
    hasHttpScheme ("https://" ++ u) = true := by
  have h : lowerChars ("https://" ++ u) = "https://".data ++ lowerChars u := by
    rw [lowerChars_append]
    rfl
  simp only [hasHttpScheme, h, startsWithChars_append_self, Bool.or_true]

theorem hasHttpScheme_empty : hasHttpScheme "" = false := by decide

theorem normalizeBaseUrl_hasScheme (u : String) :
    hasHttpScheme (normalizeBaseUrl u) = true := by
  unfold normalizeBaseUrl
  by_cases h : hasHttpScheme u = true
  · simp [h]
  · simp only [Bool.not_eq_true] at h
    simp [h, hasHttpScheme_https_append]

theorem normalizeBaseUrl_of_scheme (u : String) (h : hasHttpScheme u = true) :
    normalizeBaseUrl u = u := by
  simp [normalizeBaseUrl, h]

theorem normalizeBaseUrl_idem (u : String) :
    normalizeBaseUrl (normalizeBaseUrl u) = normalizeBaseUrl u :=
  normalizeBaseUrl_of_scheme _ (normalizeBaseUrl_hasScheme u)

theorem normalizeBaseUrl_ne_empty (u : String) : normalizeBaseUrl u ≠ "" := by
  intro h
  have := normalizeBaseUrl_hasScheme u
  rw [h, hasHttpScheme_empty] at this
  exact Bool.false_ne_true this

theorem candidates_ne_nil (env : Env) : getCandidateBaseUrls env ≠ [] := by
  unfold getCandidateBaseUrls
  split
  · next h => exact List.ne_nil_of_length_pos h
  · simp [DEFAULT_CANDIDATES]

theorem mem_candidates_ne_empty (env : Env) (c : String)
    (hc : c ∈ getCandidateBaseUrls env) : c ≠ "" := by
  unfold getCandidateBaseUrls at hc
  split at hc
  · rcases List.mem_map.mp hc with ⟨u, _, rfl⟩
    exact normalizeBaseUrl_ne_empty u
  · simp only [DEFAULT_CANDIDATES, List.mem_cons, List.not_mem_nil, or_false] at hc
    rcases hc with rfl | rfl | rfl | rfl | rfl <;> decide

/-! ### Lemmas about the auto-detection loop -/

theorem adl_exhausted (net : String → TokenHttpReply) (now : Int)
    (s : ClientState) (tried cs : List String)
    (hfail : ∀ c ∈ cs, (requestToken (net c)).isOk = false) :
    autoDetectLoop net now s tried cs =
      { result := .error (.endpointDiscoveryError (tried ++ cs)), state := s,
        attempts := cs } := by
  induction cs generalizing tried with
  | nil => simp [autoDetectLoop]
  | cons c rest ih =>
    have hc := hfail c (List.mem_cons_self c rest)
    match hrt : requestToken (net c) with
    | .ok t => rw [hrt] at hc; simp [Except.isOk, Except.toBool] at hc
    | .error e =>
      simp only [autoDetectLoop, hrt]
      rw [ih (tried ++ [c]) (fun x hx => hfail x (List.mem_cons_of_mem _ hx))]
      simp

theorem adl_first_success (net : String → TokenHttpReply) (now : Int)
    (s : ClientState) (tried pre post : List String) (c : String)
    (t : TokenResponse)
    (hpre : ∀ p ∈ pre, (requestToken (net p)).isOk = false)
    (hc : requestToken (net c) = .ok t) :
    autoDetectLoop net now s tried (pre ++ c :: post) =
      { result := .ok t.access_token
        state := { s with
          baseUrl := some c
          baseUrlExplicit := true
          accessToken := some t.access_token
          tokenExpiry := some (now + t.expires_in * 1000) }
        attempts := pre ++ [c] } := by
  induction pre generalizing tried with
  | nil => simp [autoDetectLoop, hc]
  | cons p ps ih =>
    have hp := hpre p (List.mem_cons_self p ps)
    match hrt : requestToken (net p) with
    | .ok t' => rw [hrt] at hp; simp [Except.isOk, Except.toBool] at hp
    | .error e =>
      simp only [List.cons_append, autoDetectLoop, hrt, List.append_eq]
      rw [ih (tried ++ [p]) (fun x hx => hpre x (List.mem_cons_of_mem _ hx))]

theorem adl_pair (net : String → TokenHttpReply) (now : Int)
    (s : ClientState) (tried cs : List String) :
    ((autoDetectLoop net now s tried cs).result.isOk = false →
      (autoDetectLoop net now s tried cs).state = s) ∧
    (∀ v, (autoDetectLoop net now s tried cs).result = .ok v →
      (autoDetectLoop net now s tried cs).state.accessToken = some v ∧
      ∃ ex, (autoDetectLoop net now s tried cs).state.tokenExpiry = some ex) := by
  induction cs generalizing tried with
  | nil => simp [autoDetectLoop]
  | cons c rest ih =>
    match hrt : requestToken (net c) with
    | .ok t =>
      simp only [autoDetectLoop, hrt]
      constructor
      · intro h; simp [Except.isOk, Except.toBool] at h
      · intro v hv
        simp only [Except.ok.injEq] at hv
        subst hv
        exact ⟨rfl, _, rfl⟩
    | .error e =>
      simp only [autoDetectLoop, hrt]
      exact ih (tried ++ [c])

/-! ### Branch lemmas for `getAccessToken` -/

theorem gat_unconfigured (env : Env) (net : String → TokenHttpReply)
    (now : Int) (s : ClientState) (h : s.isConfigured = false) :
    getAccessToken env net now s =
      { result := .error .configurationError, state := s, attempts := [] } := by
  simp [getAccessToken, h]

theorem gat_cached (env : Env) (net : String → TokenHttpReply) (now : Int)
    (s : ClientState) (v : String) (e : Int) (hconf : s.isConfigured = true)
    (hv : s.accessToken = some v) (hvne : v ≠ "")
    (he : s.tokenExpiry = some e) (hene : e ≠ 0) (hlt : now < e - 300000) :
    getAccessToken env net now s =
      { result := .ok v, state := s, attempts := [] } := by
  have hhit : cacheHit now s = true := by
    simp [cacheHit, hv, he, truthyStr, truthyNum, hvne, hene, hlt]
  simp [getAccessToken, hconf, hhit, hv]

theorem gat_autodetect (env : Env) (net : String → TokenHttpReply)
    (now : Int) (s : ClientState) (hconf : s.isConfigured = true)
    (hmiss : cacheHit now s = false)
    (hbranch : (!truthyStr s.baseUrl || !s.baseUrlExplicit) = true) :
    getAccessToken env net now s =
      autoDetectLoop net now s [] (getCandidateBaseUrls env) := by
  simp [getAccessToken, hconf, hmiss, hbranch]

theorem gat_explicit_ok (env : Env) (net : String → TokenHttpReply)
    (now : Int) (s : ClientState) (u : String) (t : TokenResponse)
    (hconf : s.isConfigured = true) (hmiss : cacheHit now s = false)
    (hu : s.baseUrl = some u) (hune : u ≠ "")
    (hexp : s.baseUrlExplicit = true) (ht : requestToken (net u) = .ok t) :
    getAccessToken env net now s =
      { result := .ok t.access_token
        state := { s with
          accessToken := some t.access_token
          tokenExpiry := some (now + t.expires_in * 1000) }
        attempts := [u] } := by
  simp [getAccessToken, hconf, hmiss, hu, hexp, truthyStr, hune, ht]

theorem gat_explicit_err (env : Env) (net : String → TokenHttpReply)
    (now : Int) (s : ClientState) (u : String) (e : NinjaError)
    (hconf : s.isConfigured = true) (hmiss : cacheHit now s = false)
    (hu : s.baseUrl = some u) (hune : u ≠ "")
    (hexp : s.baseUrlExplicit = true) (ht : requestToken (net u) = .error e) :
    getAccessToken env net now s =
      { result := .error e, state := s, attempts := [u] } := by
  simp [getAccessToken, hconf, hmiss, hu, hexp, truthyStr, hune, ht]

theorem cacheHit_of_none (now : Int) (s : ClientState)
    (h : s.accessToken = none) : cacheHit now s = false := by
  simp [cacheHit, h, truthyStr]

theorem mem_candidates_hasScheme (env : Env) (c : String)
    (hc : c ∈ getCandidateBaseUrls env) : hasHttpScheme c = true := by
  unfold getCandidateBaseUrls at hc
  split at hc
  · rcases List.mem_map.mp hc with ⟨u, _, rfl⟩
    exact normalizeBaseUrl_hasScheme u
  · simp only [DEFAULT_CANDIDATES, List.mem_cons, List.not_mem_nil, or_false] at hc
    rcases hc with rfl | rfl | rfl | rfl | rfl <;> decide

theorem setBaseUrl_isConfigured (url : String) (s : ClientState) :
    (setBaseUrl url s).isConfigured = s.isConfigured := rfl

/-! ### The claims -/

/-- Claim C10: `normalizeBaseUrl` always yields a URL beginning with an
`http://`/`https://` scheme (case-insensitively), returns an input that
already has such a scheme unchanged, and is idempotent; consequently
every candidate produced by `getCandidateBaseUrls` is scheme-qualified. -/
theorem c10_normalize_scheme_establishing_idempotent (u : String) (env : Env) :
    hasHttpScheme (normalizeBaseUrl u) = true ∧
    (hasHttpScheme u = true → normalizeBaseUrl u = u) ∧
    normalizeBaseUrl (normalizeBaseUrl u) = normalizeBaseUrl u ∧
    (∀ c ∈ getCandidateBaseUrls env, hasHttpScheme c = true) :=
  ⟨normalizeBaseUrl_hasScheme u, normalizeBaseUrl_of_scheme u,
   normalizeBaseUrl_idem u, fun c hc => mem_candidates_hasScheme env c hc⟩

/-- Witness for C10 at concrete inputs. -/
theorem c10_witness :
    hasHttpScheme (normalizeBaseUrl "app.ninjarmm.com") = true ∧
    normalizeBaseUrl "HTTP://eu.ninjarmm.com" = "HTTP://eu.ninjarmm.com" ∧
    normalizeBaseUrl (normalizeBaseUrl "app.ninjarmm.com") =
      normalizeBaseUrl "app.ninjarmm.com" ∧
    hasHttpScheme "https://ca.ninjarmm.com" = true :=
  ⟨(c10_normalize_scheme_establishing_idempotent "app.ninjarmm.com" {}).1,
   (c10_normalize_scheme_establishing_idempotent "HTTP://eu.ninjarmm.com" {}).2.1
     (by decide),
   (c10_normalize_scheme_establishing_idempotent "app.ninjarmm.com" {}).2.2.1,
   (c10_normalize_scheme_establishing_idempotent "x" {}).2.2.2
     "https://ca.ninjarmm.com" (by decide)⟩

/-- Claim C6: a client constructed without a client id or secret is
unconfigured; in any unconfigured state, `getAccessToken` and
`makeRequest` throw the configuration error, perform no token exchange
and no data request, and leave the state unchanged; and no operation
ever changes `isConfigured`. -/
theorem c6_unconfigured_fails_fast (env env2 : Env)
    (net : String → TokenHttpReply) (dataNet : String → HttpResponse)
    (parse : String → Option Json) (now : Int) (s : ClientState)
    (endpoint method url : String)
    (hmissing : orEmpty env2.NINJA_CLIENT_ID = "" ∨
      orEmpty env2.NINJA_CLIENT_SECRET = "")
    (h : s.isConfigured = false) :
    (mkClient env2).isConfigured = false ∧
    (mkClientServerJs env2).isConfigured = false ∧
    getAccessToken env net now s =
      { result := .error .configurationError, state := s, attempts := [] } ∧
    makeRequest env net dataNet parse now s endpoint method =
      { result := .error .configurationError, state := s,
        tokenAttempts := [], dataRequests := [] } ∧
    (getAccessToken env net now s).state.isConfigured = s.isConfigured ∧
    (setBaseUrl url s).isConfigured = s.isConfigured := by
  have hg := gat_unconfigured env net now s h
  have hmk : (mkClient env2).isConfigured = false := by
    rcases hmissing with hm | hm <;> simp [mkClient, hm]
  refine ⟨hmk, hmk, hg, ?_, ?_, rfl⟩
  · simp [makeRequest, hg]
  · rw [hg]

/-- Witness for C6: a concrete client with no secret configured. -/
theorem c6_witness :
    getAccessToken {} (fun _ => .noResponse) 0
        (mkClient { NINJA_CLIENT_ID := some "id" }) =
      { result := .error .configurationError
        state := mkClient { NINJA_CLIENT_ID := some "id" }
        attempts := [] } :=
  (c6_unconfigured_fails_fast {} { NINJA_CLIENT_ID := some "id" }
    (fun _ => .noResponse) (fun _ => ⟨true, 200, "OK", ""⟩) (fun _ => none) 0
    (mkClient { NINJA_CLIENT_ID := some "id" }) "/v2/devices" "GET" "x.com"
    (Or.inr rfl) (by decide)).2.2.1

/-- Claim C5: `setBaseUrl` sets the endpoint to the normalized URL with
`explicit=true` and clears both halves of the token cache; `setRegion`
on a known key delegates to `setBaseUrl`; and the next `getAccessToken`
performs its token exchange exactly against the new base URL. -/
theorem c5_override_invalidates_cache (env : Env)
    (net : String → TokenHttpReply) (now : Int) (s : ClientState)
    (url : String) (hconf : s.isConfigured = true) :
    (setBaseUrl url s).baseUrl = some (normalizeBaseUrl url) ∧
    (setBaseUrl url s).baseUrlExplicit = true ∧
    (setBaseUrl url s).accessToken = none ∧
    (setBaseUrl url s).tokenExpiry = none ∧
    (∀ region mapped, REGION_MAP (jsToLower region) = some mapped →
      setRegion region s = .ok (setBaseUrl mapped s)) ∧
    (getAccessToken env net now (setBaseUrl url s)).attempts =
      [normalizeBaseUrl url] := by
  refine ⟨rfl, rfl, rfl, rfl, fun region mapped hm => by simp [setRegion, hm], ?_⟩
  have hconf2 : (setBaseUrl url s).isConfigured = true := by
    rw [setBaseUrl_isConfigured, hconf]
  have hmiss : cacheHit now (setBaseUrl url s) = false :=
    cacheHit_of_none now _ rfl
  have hbase : (setBaseUrl url s).baseUrl = some (normalizeBaseUrl url) := rfl
  have hexp : (setBaseUrl url s).baseUrlExplicit = true := rfl
  match ht : requestToken (net (normalizeBaseUrl url)) with
  | .ok t =>
    rw [gat_explicit_ok env net now _ _ t hconf2 hmiss hbase
      (normalizeBaseUrl_ne_empty url) hexp ht]
  | .error e =>
    rw [gat_explicit_err env net now _ _ e hconf2 hmiss hbase
      (normalizeBaseUrl_ne_empty url) hexp ht]

/-- Witness for C5: overriding to `eu.ninjarmm.com` from a client with a
valid cached token for another URL. -/
theorem c5_witness :
    (getAccessToken {} (fun _ => .noResponse) 0
      (setBaseUrl "eu.ninjarmm.com"
        { baseUrl := some "https://app.ninjarmm.com", clientId := "id"
          clientSecret := "sec", accessToken := some "oldTok"
          tokenExpiry := some 100000000, isConfigured := true
          baseUrlExplicit := true })).attempts = ["https://eu.ninjarmm.com"] :=
  (c5_override_invalidates_cache {} (fun _ => .noResponse) 0
    { baseUrl := some "https://app.ninjarmm.com", clientId := "id"
      clientSecret := "sec", accessToken := some "oldTok"
      tokenExpiry := some 100000000, isConfigured := true
      baseUrlExplicit := true } "eu.ninjarmm.com" rfl).2.2.2.2.2

theorem gat_hit (env : Env) (net : String → TokenHttpReply) (now : Int)
    (s : ClientState) (hconf : s.isConfigured = true)
    (hhit : cacheHit now s = true) :
    getAccessToken env net now s =
      { result := .ok ((s.accessToken).getD ""), state := s, attempts := [] } := by
  simp [getAccessToken, hconf, hhit]

theorem adl_attempts_ne_nil (net : String → TokenHttpReply) (now : Int)
    (s : ClientState) (tried : List String) (c : String) (rest : List String) :
    (autoDetectLoop net now s tried (c :: rest)).attempts ≠ [] := by
  cases hrt : requestToken (net c) <;> simp [autoDetectLoop, hrt]

theorem truthyStr_elim {o : Option String} (h : truthyStr o = true) :
    ∃ w, o = some w ∧ w ≠ "" := by
  cases o with
  | none => simp [truthyStr] at h
  | some w => exact ⟨w, rfl, by simpa [truthyStr] using h⟩

theorem cacheHit_elim {now : Int} {s : ClientState}
    (h : cacheHit now s = true) :
    truthyStr s.accessToken = true ∧ truthyNum s.tokenExpiry = true ∧
    now < (s.tokenExpiry).getD 0 - 300000 := by
  have h2 := h
  simp only [cacheHit, Bool.and_eq_true, decide_eq_true_eq] at h2
  exact ⟨h2.1.1, h2.1.2, h2.2⟩

/-- Claim C2: when `getAccessToken` runs auto-detection over the candidate
list split as `pre ++ c :: post` (every candidate of `pre` rejecting the
credentials, `c` the first accepting one), it attempts exactly the
candidates of `pre` once each, in order, then `c`, and none after `c`;
it adopts `c` as the resolved endpoint with `explicit=true`, caches the
returned token, and no subsequent call attempts any URL other than `c`
while that endpoint remains set. -/
theorem c2_autodetect_first_success_locks_endpoint (env : Env)
    (net : String → TokenHttpReply) (now : Int) (s : ClientState)
    (pre post : List String) (c : String) (t : TokenResponse)
    (hconf : s.isConfigured = true) (hnotok : s.accessToken = none)
    (hnexp : s.baseUrlExplicit = false)
    (hsplit : getCandidateBaseUrls env = pre ++ c :: post)
    (hpre : ∀ p ∈ pre, (requestToken (net p)).isOk = false)
    (hc : requestToken (net c) = .ok t) :
    (getAccessToken env net now s).attempts = pre ++ [c] ∧
    (getAccessToken env net now s).result = .ok t.access_token ∧
    (getAccessToken env net now s).state = { s with
      baseUrl := some c
      baseUrlExplicit := true
      accessToken := some t.access_token
      tokenExpiry := some (now + t.expires_in * 1000) } ∧
    (∀ net2 now2,
      (getAccessToken env net2 now2 (getAccessToken env net now s).state).attempts
          = [] ∨
      (getAccessToken env net2 now2 (getAccessToken env net now s).state).attempts
          = [c]) := by
  have hmiss := cacheHit_of_none now s hnotok
  have hbranch : (!truthyStr s.baseUrl || !s.baseUrlExplicit) = true := by
    simp [hnexp]
  have hrw := gat_autodetect env net now s hconf hmiss hbranch
  rw [hsplit, adl_first_success net now s [] pre post c t hpre hc] at hrw
  refine ⟨by rw [hrw], by rw [hrw], by rw [hrw], ?_⟩
  intro net2 now2
  rw [hrw]
  have hcne : c ≠ "" := mem_candidates_ne_empty env c (by
    rw [hsplit]
    exact List.mem_append_right _ (List.mem_cons_self c post))
  set s2 : ClientState := { s with
    baseUrl := some c
    baseUrlExplicit := true
    accessToken := some t.access_token
    tokenExpiry := some (now + t.expires_in * 1000) } with hs2
  have hconf2 : s2.isConfigured = true := hconf
  rcases Bool.eq_false_or_eq_true (cacheHit now2 s2) with hh2 | hm2
  · left
    rw [gat_hit env net2 now2 s2 hconf2 hh2]
  · right
    cases hrt : requestToken (net2 c) with
    | ok t2 => rw [gat_explicit_ok env net2 now2 s2 c t2 hconf2 hm2 rfl hcne rfl hrt]
    | error e2 => rw [gat_explicit_err env net2 now2 s2 c e2 hconf2 hm2 rfl hcne rfl hrt]

/-- Witness for C2: default candidates with the first rejecting and the
second accepting. -/
theorem c2_witness :
    (getAccessToken {}
      (fun u => if u == "https://us2.ninjarmm.com" then
          .response true 200 "OK" (some ⟨"tokB", 3600⟩)
        else .response false 401 "Unauthorized" none) 0
      (mkClient { NINJA_CLIENT_ID := some "id"
                  NINJA_CLIENT_SECRET := some "sec" })).attempts =
      ["https://app.ninjarmm.com", "https://us2.ninjarmm.com"] :=
  (c2_autodetect_first_success_locks_endpoint {}
    (fun u => if u == "https://us2.ninjarmm.com" then
        .response true 200 "OK" (some ⟨"tokB", 3600⟩)
      else .response false 401 "Unauthorized" none) 0
    (mkClient { NINJA_CLIENT_ID := some "id", NINJA_CLIENT_SECRET := some "sec" })
    ["https://app.ninjarmm.com"]
    ["https://eu.ninjarmm.com", "https://ca.ninjarmm.com",
     "https://oc.ninjarmm.com"]
    "https://us2.ninjarmm.com" ⟨"tokB", 3600⟩
    (by decide) (by decide) (by decide) (by decide) (by decide) (by decide)).1

/-- Claim C4: when no candidate accepts the credentials, auto-detection in
`getAccessToken` fails with the endpoint-discovery error whose
diagnostic message lists all candidates tried in their original order,
raised once at exhaustion (a single terminal error after every candidate
was attempted exactly once, state unchanged). -/
theorem c4_discovery_exhaustion (env : Env) (net : String → TokenHttpReply)
    (now : Int) (s : ClientState)
    (hconf : s.isConfigured = true) (hnotok : s.accessToken = none)
    (hnexp : s.baseUrlExplicit = false)
    (hfail : ∀ cand ∈ getCandidateBaseUrls env,
      (requestToken (net cand)).isOk = false) :
    getAccessToken env net now s =
      { result := .error (.endpointDiscoveryError (getCandidateBaseUrls env))
        state := s
        attempts := getCandidateBaseUrls env } ∧
    (NinjaError.endpointDiscoveryError (getCandidateBaseUrls env)).message =
      "Failed to acquire OAuth token: no candidate base URL succeeded. Tried: "
        ++ String.intercalate ", " (getCandidateBaseUrls env) := by
  refine ⟨?_, rfl⟩
  have hmiss := cacheHit_of_none now s hnotok
  have hbranch : (!truthyStr s.baseUrl || !s.baseUrlExplicit) = true := by
    simp [hnexp]
  rw [gat_autodetect env net now s hconf hmiss hbranch,
    adl_exhausted net now s [] (getCandidateBaseUrls env) hfail]
  rw [List.nil_append]

/-- Witness for C4: credentials no region accepts, default candidates. -/
theorem c4_witness :
    getAccessToken {} (fun _ => .response false 401 "Unauthorized" none) 0
        (mkClient { NINJA_CLIENT_ID := some "id"
                    NINJA_CLIENT_SECRET := some "sec" }) =
      { result := .error (.endpointDiscoveryError DEFAULT_CANDIDATES)
        state := mkClient { NINJA_CLIENT_ID := some "id"
                            NINJA_CLIENT_SECRET := some "sec" }
        attempts := DEFAULT_CANDIDATES } :=
  (c4_discovery_exhaustion {} (fun _ => .response false 401 "Unauthorized" none)
    0 (mkClient { NINJA_CLIENT_ID := some "id", NINJA_CLIENT_SECRET := some "sec" })
    (by decide) (by decide) (by decide) (by decide)).1

/-- Claim C3, counterexample: a configured client holding a cached token
pair whose value is the empty string, well inside the 5-minute margin
(`now = 0`, `expiresAt = 10^9`): the claim says `getAccessToken` returns
the cached value with no token-exchange call, but the code (for which
the empty string is falsy) performs a token exchange and does not return
the cached value. -/
theorem c3_counterexample_empty_cached_token :
    (0 : Int) < 1000000000 - 300000 ∧
    (getAccessToken {} (fun _ => .response false 401 "Unauthorized" none) 0
      { baseUrl := some "https://eu.ninjarmm.com", clientId := "id"
        clientSecret := "sec", accessToken := some ""
        tokenExpiry := some 1000000000, isConfigured := true
        baseUrlExplicit := true }).attempts ≠ [] ∧
    (getAccessToken {} (fun _ => .response false 401 "Unauthorized" none) 0
      { baseUrl := some "https://eu.ninjarmm.com", clientId := "id"
        clientSecret := "sec", accessToken := some ""
        tokenExpiry := some 1000000000, isConfigured := true
        baseUrlExplicit := true }).result ≠ .ok "" := by decide

/-- Claim C3, amended: for a configured client with a cached token pair,
`getAccessToken` returns the cached value with no token-exchange call
iff the cached value is non-empty, the cached expiry is non-zero, and
`now < expiresAt - 300000`; otherwise it performs a new token exchange
(a cached empty-string value or zero expiry is treated as no cached
token). -/
theorem c3_cached_reuse_amended (env : Env) (net : String → TokenHttpReply)
    (now : Int) (s : ClientState) (v : String) (e : Int)
    (hconf : s.isConfigured = true) (hv : s.accessToken = some v)
    (he : s.tokenExpiry = some e) :
    (v ≠ "" ∧ e ≠ 0 ∧ now < e - 300000 →
      getAccessToken env net now s =
        { result := .ok v, state := s, attempts := [] }) ∧
    (¬(v ≠ "" ∧ e ≠ 0 ∧ now < e - 300000) →
      (getAccessToken env net now s).attempts ≠ []) := by
  constructor
  · rintro ⟨h1, h2, h3⟩
    exact gat_cached env net now s v e hconf hv h1 he h2 h3
  · intro hnot
    rcases Bool.eq_false_or_eq_true (cacheHit now s) with hhit | hmiss
    · exfalso
      apply hnot
      have h := cacheHit_elim hhit
      refine ⟨?_, ?_, ?_⟩
      · rcases truthyStr_elim h.1 with ⟨w, hw, hwne⟩
        rw [hv] at hw
        cases hw
        exact hwne
      · have := h.2.1
        rw [he] at this
        simpa [truthyNum] using this
      · have := h.2.2
        rwa [he] at this
    · by_cases hb : (!truthyStr s.baseUrl || !s.baseUrlExplicit) = true
      · rw [gat_autodetect env net now s hconf hmiss hb]
        rcases hcs : getCandidateBaseUrls env with _ | ⟨c, rest⟩
        · exact absurd hcs (candidates_ne_nil env)
        · exact adl_attempts_ne_nil net now s [] c rest
      · have hb2 : truthyStr s.baseUrl = true ∧ s.baseUrlExplicit = true := by
          rcases Bool.eq_false_or_eq_true (truthyStr s.baseUrl) with h1 | h1 <;>
            rcases Bool.eq_false_or_eq_true s.baseUrlExplicit with h2 | h2 <;>
            simp [h1, h2] at hb ⊢
        rcases truthyStr_elim hb2.1 with ⟨u, hu, hune⟩
        cases hrt : requestToken (net u) with
        | ok t =>
          rw [gat_explicit_ok env net now s u t hconf hmiss hu hune hb2.2 hrt]
          simp
        | error er =>
          rw [gat_explicit_err env net now s u er hconf hmiss hu hune hb2.2 hrt]
          simp

/-- Witness for C3 (amended): a non-empty cached token inside the
margin is returned with no network call. -/
theorem c3_witness :
    getAccessToken {} (fun _ => .noResponse) 0
        { baseUrl := some "https://eu.ninjarmm.com", clientId := "id"
          clientSecret := "sec", accessToken := some "tok"
          tokenExpiry := some 1000000000, isConfigured := true
          baseUrlExplicit := true } =
      { result := .ok "tok"
        state := { baseUrl := some "https://eu.ninjarmm.com", clientId := "id"
                   clientSecret := "sec", accessToken := some "tok"
                   tokenExpiry := some 1000000000, isConfigured := true
                   baseUrlExplicit := true }
        attempts := [] } :=
  (c3_cached_reuse_amended {} (fun _ => .noResponse) 0
    { baseUrl := some "https://eu.ninjarmm.com", clientId := "id"
      clientSecret := "sec", accessToken := some "tok"
      tokenExpiry := some 1000000000, isConfigured := true
      baseUrlExplicit := true } "tok" 1000000000 rfl rfl rfl).1
    (by refine ⟨by decide, by decide, by decide⟩)

/-- Claim C7: for 2xx responses, `makeRequest` returns the normalized
body, and the normalization is: `DELETE` with status 204 yields
`{success:true}`; an empty or whitespace-only body (any method) yields
`{success:true}`; a body that fails to parse as JSON yields
`{success:true}`; otherwise the parsed JSON structure unchanged. -/
theorem c7_response_normalization (parse : String → Option Json)
    (method : String) (status : Nat) (body : String) (j : Json) (env : Env)
    (net : String → TokenHttpReply) (dataNet : String → HttpResponse)
    (now : Int) (s : ClientState) (endpoint tok : String) :
    (method = "DELETE" → status = 204 →
      normalizeResponse parse method status body = successTrue) ∧
    (jsTrim body = "" →
      normalizeResponse parse method status body = successTrue) ∧
    (parse body = none →
      normalizeResponse parse method status body = successTrue) ∧
    (¬(method = "DELETE" ∧ status = 204) → jsTrim body ≠ "" →
      parse body = some j →
      normalizeResponse parse method status body = j) ∧
    ((getAccessToken env net now s).result = .ok tok →
      (dataNet (requestBase (getAccessToken env net now s).state
        ++ endpoint)).ok = true →
      (makeRequest env net dataNet parse now s endpoint method).result =
        .ok (normalizeResponse parse method
          (dataNet (requestBase (getAccessToken env net now s).state
            ++ endpoint)).status
          (dataNet (requestBase (getAccessToken env net now s).state
            ++ endpoint)).body)) := by
  refine ⟨?_, ?_, ?_, ?_, ?_⟩
  · rintro rfl rfl
    simp [normalizeResponse]
  · intro hb
    unfold normalizeResponse
    split
    · rfl
    · rw [if_pos]
      simp [hb]
  · intro hp
    unfold normalizeResponse
    split
    · rfl
    · split
      · rfl
      · rw [hp]
  · intro hnd hb hp
    have hcond : (method == "DELETE" && status == 204) = false := by
      by_cases hm : method = "DELETE"
      · by_cases hs : status = 204
        · exact absurd ⟨hm, hs⟩ hnd
        · simp [hs]
      · simp [hm]
    unfold normalizeResponse
    rw [hcond, if_neg (by simp), if_neg (by simpa using hb), hp]
  · intro hg hok
    simp [makeRequest, hg, hok]

/-- Witness for C7 at concrete inputs: a DELETE/204, an empty body, an
unparsable body, a parsed body relayed unchanged, and a full
`makeRequest` round trip. -/
theorem c7_witness :
    normalizeResponse (fun _ => none) "DELETE" 204 "" = successTrue ∧
    normalizeResponse (fun _ => none) "GET" 200 "  " = successTrue ∧
    normalizeResponse (fun _ => none) "GET" 200 "not json" = successTrue ∧
    normalizeResponse (fun _ => some (.num 7)) "GET" 200 "7" = .num 7 := by
  have h := c7_response_normalization (fun _ => none) "DELETE" 204 "" (.num 7)
    {} (fun _ => .noResponse) (fun _ => ⟨true, 200, "OK", ""⟩) 0
    (mkClient {}) "/x" "tok"
  have h2 := c7_response_normalization (fun _ => none) "GET" 200 "  " (.num 7)
    {} (fun _ => .noResponse) (fun _ => ⟨true, 200, "OK", ""⟩) 0
    (mkClient {}) "/x" "tok"
  have h3 := c7_response_normalization (fun _ => none) "GET" 200 "not json"
    (.num 7) {} (fun _ => .noResponse) (fun _ => ⟨true, 200, "OK", ""⟩) 0
    (mkClient {}) "/x" "tok"
  have h4 := c7_response_normalization (fun _ => some (.num 7)) "GET" 200 "7"
    (.num 7) {} (fun _ => .noResponse) (fun _ => ⟨true, 200, "OK", ""⟩) 0
    (mkClient {}) "/x" "tok"
  exact ⟨h.1 rfl rfl, h2.2.1 (by decide), h3.2.2.1 rfl,
    h4.2.2.2.1 (by decide) (by decide) rfl⟩

/-- Claim C8: a token-exchange attempt with a non-ok (non-2xx) HTTP status
fails on the status alone (the outcome is independent of the body, which
need not be parsed); an ok response with parsed `access_token` and
`expires_in` succeeds; and on success against an explicit endpoint
`getAccessToken` caches exactly
`expiresAtEpochMillis = now + expires_in * 1000` with the returned
token. -/
theorem c8_token_exchange_status_and_expiry (status : Nat)
    (statusText : String) (b1 b2 : Option TokenResponse)
    (t2 : TokenResponse) (env : Env) (net : String → TokenHttpReply)
    (now : Int) (s : ClientState) (u : String) (t : TokenResponse)
    (hconf : s.isConfigured = true) (hnotok : s.accessToken = none)
    (hu : s.baseUrl = some u) (hune : u ≠ "")
    (hexp : s.baseUrlExplicit = true) (hok : requestToken (net u) = .ok t) :
    requestToken (.response false status statusText b1) =
      requestToken (.response false status statusText b2) ∧
    requestToken (.response false status statusText b1) =
      .error (.oauthHttpError status statusText) ∧
    requestToken (.response true status statusText (some t2)) = .ok t2 ∧
    (getAccessToken env net now s).state.accessToken = some t.access_token ∧
    (getAccessToken env net now s).state.tokenExpiry =
      some (now + t.expires_in * 1000) ∧
    (getAccessToken env net now s).result = .ok t.access_token := by
  have hg := gat_explicit_ok env net now s u t hconf
    (cacheHit_of_none now s hnotok) hu hune hexp hok
  exact ⟨rfl, rfl, rfl, by rw [hg], by rw [hg], by rw [hg]⟩

/-- Witness for C8: a 500 with differing bodies fails identically; a
2xx with `{access_token:"tok", expires_in:3600}` at `now = 5` caches
expiry `5 + 3600000`. -/
theorem c8_witness :
    requestToken (.response false 500 "Server Error"
        (some ⟨"ignored", 1⟩)) =
      requestToken (.response false 500 "Server Error" none) ∧
    (getAccessToken {}
      (fun _ => .response true 200 "OK" (some ⟨"tok", 3600⟩)) 5
      { baseUrl := some "https://eu.ninjarmm.com", clientId := "id"
        clientSecret := "sec", accessToken := none, tokenExpiry := none
        isConfigured := true, baseUrlExplicit := true }).state.tokenExpiry =
      some (5 + 3600 * 1000) := by
  have h := c8_token_exchange_status_and_expiry 500 "Server Error"
    (some ⟨"ignored", 1⟩) none ⟨"x", 1⟩ {}
    (fun _ => .response true 200 "OK" (some ⟨"tok", 3600⟩)) 5
    { baseUrl := some "https://eu.ninjarmm.com", clientId := "id"
      clientSecret := "sec", accessToken := none, tokenExpiry := none
      isConfigured := true, baseUrlExplicit := true }
    "https://eu.ninjarmm.com" ⟨"tok", 3600⟩
    rfl rfl rfl (by decide) rfl rfl
  exact ⟨h.1, h.2.2.2.2.1⟩

/-- Claim C9: the cached token pair is mutated only wholesale: every
`getAccessToken` call either leaves both fields exactly as they were
(in particular whenever it fails) or replaces both together with the
values of a successful exchange (returning that token), and the
override operations clear both fields together. -/
theorem c9_token_pair_mutated_wholesale (env : Env)
    (net : String → TokenHttpReply) (now : Int) (s : ClientState)
    (url region : String) :
    ((getAccessToken env net now s).result.isOk = false →
      (getAccessToken env net now s).state.accessToken = s.accessToken ∧
      (getAccessToken env net now s).state.tokenExpiry = s.tokenExpiry) ∧
    (((getAccessToken env net now s).state.accessToken = s.accessToken ∧
        (getAccessToken env net now s).state.tokenExpiry = s.tokenExpiry) ∨
      (∃ v ex, (getAccessToken env net now s).state.accessToken = some v ∧
        (getAccessToken env net now s).state.tokenExpiry = some ex ∧
        (getAccessToken env net now s).result = .ok v)) ∧
    ((setBaseUrl url s).accessToken = none ∧
      (setBaseUrl url s).tokenExpiry = none) ∧
    (∀ s2, setRegion region s = .ok s2 →
      s2.accessToken = none ∧ s2.tokenExpiry = none) := by
  have hreg : ∀ s2, setRegion region s = .ok s2 →
      s2.accessToken = none ∧ s2.tokenExpiry = none := by
    intro s2 h
    unfold setRegion at h
    rcases hm : REGION_MAP (jsToLower region) with _ | mapped <;> rw [hm] at h
    · cases h
    · cases h
      exact ⟨rfl, rfl⟩
  rcases Bool.eq_false_or_eq_true s.isConfigured with hconf | hconf
  case inr =>
    rw [gat_unconfigured env net now s hconf]
    exact ⟨fun _ => ⟨rfl, rfl⟩, Or.inl ⟨rfl, rfl⟩, ⟨rfl, rfl⟩, hreg⟩
  rcases Bool.eq_false_or_eq_true (cacheHit now s) with hhit | hmiss
  case inl =>
    rw [gat_hit env net now s hconf hhit]
    refine ⟨?_, Or.inl ⟨rfl, rfl⟩, ⟨rfl, rfl⟩, hreg⟩
    intro h
    simp [Except.isOk, Except.toBool] at h
  by_cases hb : (!truthyStr s.baseUrl || !s.baseUrlExplicit) = true
  · rw [gat_autodetect env net now s hconf hmiss hb]
    have hp := adl_pair net now s [] (getCandidateBaseUrls env)
    refine ⟨?_, ?_, ⟨rfl, rfl⟩, hreg⟩
    · intro h
      rw [hp.1 h]
      exact ⟨rfl, rfl⟩
    · rcases hres : (autoDetectLoop net now s []
          (getCandidateBaseUrls env)).result with e | v
      · left
        rw [hp.1 (by rw [hres]; rfl)]
        exact ⟨rfl, rfl⟩
      · right
        rcases hp.2 v hres with ⟨ha, ex, hex⟩
        exact ⟨v, ex, ha, hex, rfl⟩
  · have hb2 : truthyStr s.baseUrl = true ∧ s.baseUrlExplicit = true := by
      rcases Bool.eq_false_or_eq_true (truthyStr s.baseUrl) with h1 | h1 <;>
        rcases Bool.eq_false_or_eq_true s.baseUrlExplicit with h2 | h2 <;>
        simp [h1, h2] at hb ⊢
    rcases truthyStr_elim hb2.1 with ⟨u, hu, hune⟩
    cases hrt : requestToken (net u) with
    | ok t =>
      rw [gat_explicit_ok env net now s u t hconf hmiss hu hune hb2.2 hrt]
      refine ⟨?_, Or.inr ⟨t.access_token, now + t.expires_in * 1000,
        rfl, rfl, rfl⟩, ⟨rfl, rfl⟩, hreg⟩
      intro h
      simp [Except.isOk, Except.toBool] at h
    | error er =>
      rw [gat_explicit_err env net now s u er hconf hmiss hu hune hb2.2 hrt]
      exact ⟨fun _ => ⟨rfl, rfl⟩, Or.inl ⟨rfl, rfl⟩, ⟨rfl, rfl⟩, hreg⟩

/-- Witness for C9: a failing explicit exchange leaves the stale cached
pair untouched. -/
theorem c9_witness :
    (getAccessToken {} (fun _ => .response false 401 "Unauthorized" none) 0
      { baseUrl := some "https://eu.ninjarmm.com", clientId := "id"
        clientSecret := "sec", accessToken := some "staleTok"
        tokenExpiry := some (-5), isConfigured := true
        baseUrlExplicit := true }).state.accessToken = some "staleTok" :=
  ((c9_token_pair_mutated_wholesale {}
    (fun _ => .response false 401 "Unauthorized" none) 0
    { baseUrl := some "https://eu.ninjarmm.com", clientId := "id"
      clientSecret := "sec", accessToken := some "staleTok"
      tokenExpiry := some (-5), isConfigured := true
      baseUrlExplicit := true } "x.com" "eu").1 (by decide)).1

/-- Claim C1 (code bug; the constructor of the JavaScript variant drops
the explicit mark): a client constructed with the explicit base URL
`https://eu.ninjarmm.com` has `baseUrlExplicit = true` under the
TypeScript constructor, but under the `src/server/ninja-api.js`
constructor the trailing `this.baseUrlExplicit = false` (line 31)
overwrites it; the first `getAccessToken` call then runs auto-detection
and silently replaces the explicitly configured base URL with the first
accepting candidate (`https://app.ninjarmm.com`), contradicting the
specified invariant. -/
theorem c1_server_constructor_drops_explicit_mark :
    (mkClient { NINJA_BASE_URL := some "https://eu.ninjarmm.com"
                NINJA_CLIENT_ID := some "id"
                NINJA_CLIENT_SECRET := some "sec" }).baseUrlExplicit = true ∧
    (mkClientServerJs { NINJA_BASE_URL := some "https://eu.ninjarmm.com"
                        NINJA_CLIENT_ID := some "id"
                        NINJA_CLIENT_SECRET := some "sec" }).baseUrlExplicit
      = false ∧
    (mkClientServerJs { NINJA_BASE_URL := some "https://eu.ninjarmm.com"
                        NINJA_CLIENT_ID := some "id"
                        NINJA_CLIENT_SECRET := some "sec" }).baseUrl
      = some "https://eu.ninjarmm.com" ∧
    (getAccessToken {} (fun _ => .response true 200 "OK" (some ⟨"tok", 3600⟩))
      0 (mkClientServerJs { NINJA_BASE_URL := some "https://eu.ninjarmm.com"
                            NINJA_CLIENT_ID := some "id"
                            NINJA_CLIENT_SECRET := some "sec" })).state.baseUrl
      = some "https://app.ninjarmm.com" ∧
    (getAccessToken {} (fun _ => .response true 200 "OK" (some ⟨"tok", 3600⟩))
      0 (mkClient { NINJA_BASE_URL := some "https://eu.ninjarmm.com"
                    NINJA_CLIENT_ID := some "id"
                    NINJA_CLIENT_SECRET := some "sec" })).state.baseUrl
      = some "https://eu.ninjarmm.com" := by decide

end NinjaOne
